import Mathlib

/-!
Verification of the education-content pipeline (nextjs-agent).

This file embeds, as executable Lean definitions, the parts of the source
relevant to the frozen claims:

* the JSON value model and the JavaScript coercions the code relies on
  (truthiness, property access that throws on `null`/`undefined`, `||`);
* the zod schemas of `app/lib/schemas/education-graph.ts`
  (`TocSchema`, `AlternativeTocSchema`, `LessonContentSchema`,
  `AlternativeLessonContentSchema`);
* the tiered TOC normalizer of the `generateTOC` node
  (strict schema → alias conversion → revalidation → synthetic stub);
* the per-chapter content processing of `generateChapterContent`
  (cache lookup, LLM invocation outcome, lesson normalization with the
  rich-schema pass-through, error-chapter substitution, cache write);
* the sequential pipeline orchestrator (`createEducationGraph().invoke`);
* an operational scheduler model for the parallel per-subtopic fan-out
  joined by `Promise.all`.

JavaScript numbers are modelled as `Int` (every number the schemas accept
with `.int()` is an integer, and no claim depends on float behaviour).
`undefined` and `null` are merged into `Json.null`: both are falsy and both
throw on property access, which is all the modelled code observes.
-/

/-- A JSON value as produced by `JSON.parse` (plus `undefined`, merged into
`null`). -/
inductive Json where
  | null
  | bool (b : Bool)
  | num (n : Int)
  | str (s : String)
  | arr (elems : List Json)
  | obj (fields : List (String × Json))
deriving Repr

/-- JavaScript truthiness: `null`/`undefined`, `false`, `0` and `""` are
falsy; arrays and objects (even empty ones) are truthy. -/
def Json.isTruthy : Json → Bool
  | .null => false
  | .bool b => b
  | .num n => n != 0
  | .str s => s ≠ ""
  | .arr _ => true
  | .obj _ => true

/-- `typeof x === 'number'`. -/
def Json.isNum : Json → Bool
  | .num _ => true
  | _ => false

/-- `Array.isArray(x)`. -/
def Json.isArr : Json → Bool
  | .arr _ => true
  | _ => false

/-- JavaScript property access `x.k`: throws a `TypeError` when `x` is
`null`/`undefined`; yields `undefined` (modelled `Json.null`) for a missing
key or for a primitive/array receiver. -/
def jsGet : Json → String → Except Unit Json
  | .null, _ => .error ()
  | .obj fs, k => .ok ((fs.lookup k).getD .null)
  | _, _ => .ok .null

/-- JavaScript `a || b`. -/
def jsOr (a b : Json) : Json :=
  if a.isTruthy then a else b

/-- Truthiness of a JS string-or-undefined value (`undefined` and `""` are
falsy). -/
def strTruthy : Option String → Bool
  | some s => s ≠ ""
  | none => false

/-- `a || b` on string-or-undefined values. -/
def jsOrS (a b : Option String) : Option String :=
  if strTruthy a then a else b

/-- `a || d` where `d` is a (truthy or not, but final) string default. -/
def strOrD (a : Option String) (d : String) : String :=
  match a with
  | some s => if s = "" then d else s
  | none => d

/-- `a || b` on optional arrays: an array value is truthy even when empty,
so the first *present* operand wins. -/
def jsOrArr (a b : Option (List Json)) : Option (List Json) :=
  match a with
  | some xs => some xs
  | none => b

/-- An alias chain `x.k1 || x.k2 || ... || dflt` (JS `||` is associative in
its result, and every access is on the same receiver, so eager evaluation
throws exactly when the lazy chain does: only for a `null` receiver). -/
def jsGetOr (x : Json) (ks : List String) (dflt : Json) : Except Unit Json :=
  match ks with
  | [] => pure dflt
  | k :: rest => do
    let v ← jsGet x k
    let r ← jsGetOr x rest dflt
    pure (jsOr v r)

/-! ### zod parsing helpers

`z.object(...)` fails on non-objects; a required field must be present and
validate; `.optional()` accepts a missing field but rejects a present
non-conforming value (including `null`). zod strips unknown keys, so the
parse result is the canonical record. -/

def asStr : Json → Option String
  | .str s => some s
  | _ => none

def asInt : Json → Option Int
  | .num n => some n
  | _ => none

def asArr : Json → Option (List Json)
  | .arr xs => some xs
  | _ => none

def asObj : Json → Option (List (String × Json))
  | .obj fs => some fs
  | _ => none

def reqField (fs : List (String × Json)) (k : String) (p : Json → Option α) :
    Option α :=
  fs.lookup k >>= p

def optField (fs : List (String × Json)) (k : String) (p : Json → Option α) :
    Option (Option α) :=
  match fs.lookup k with
  | none => some none
  | some v => (p v).map some

def asArrOf (p : Json → Option α) (j : Json) : Option (List α) :=
  asArr j >>= (·.mapM p)

/-! ### Strict TOC schema (`TocSchema` in `schemas/education-graph.ts`)

`lessons` entries are `z.union([z.string(), LessonSchema])`, tried in that
order. `correctAnswer` is `z.number().int()` with no bounds. -/

structure QuizItem where
  question : String
  options : List String
  correctAnswer : Int
deriving Repr, DecidableEq

structure LessonObj where
  title : String
  content : Option String
  quiz : Option (List QuizItem)
deriving Repr, DecidableEq

inductive LessonEntry where
  | strL (s : String)
  | objL (l : LessonObj)
deriving Repr, DecidableEq

structure ChapterT where
  title : String
  description : String
  lessons : List LessonEntry
deriving Repr, DecidableEq

structure SubTopicT where
  title : String
  description : String
  chapters : List ChapterT
deriving Repr, DecidableEq

structure Toc where
  mainTopic : String
  description : String
  subTopics : List SubTopicT
deriving Repr, DecidableEq

def parseQuizItem (j : Json) : Option QuizItem := do
  let fs ← asObj j
  let q ← reqField fs "question" asStr
  let opts ← reqField fs "options" (asArrOf asStr)
  let ca ← reqField fs "correctAnswer" asInt
  pure ⟨q, opts, ca⟩

def parseLessonObj (j : Json) : Option LessonObj := do
  let fs ← asObj j
  let t ← reqField fs "title" asStr
  let c ← optField fs "content" asStr
  let qz ← optField fs "quiz" (asArrOf parseQuizItem)
  pure ⟨t, c, qz⟩

def parseLessonEntry (j : Json) : Option LessonEntry :=
  match asStr j with
  | some s => some (.strL s)
  | none => (parseLessonObj j).map .objL

def parseChapterT (j : Json) : Option ChapterT := do
  let fs ← asObj j
  let t ← reqField fs "title" asStr
  let d ← reqField fs "description" asStr
  let ls ← reqField fs "lessons" (asArrOf parseLessonEntry)
  pure ⟨t, d, ls⟩

def parseSubTopicT (j : Json) : Option SubTopicT := do
  let fs ← asObj j
  let t ← reqField fs "title" asStr
  let d ← reqField fs "description" asStr
  let cs ← reqField fs "chapters" (asArrOf parseChapterT)
  pure ⟨t, d, cs⟩

/-- `TocSchema.safeParse` (success ↦ the stripped canonical value). Note
that `z.array` imposes no minimum length: empty `subTopics` or empty
per-chapter `lessons` validate. -/
def parseToc (j : Json) : Option Toc := do
  let fs ← asObj j
  let mt ← reqField fs "mainTopic" asStr
  let d ← reqField fs "description" asStr
  let sts ← reqField fs "subTopics" (asArrOf parseSubTopicT)
  pure ⟨mt, d, sts⟩

/-! ### Alternative TOC schema (`AlternativeTocSchema`)

Key-aliased permissive schema. The `MainTopic` / `"Main Topic"` variants
are fully typed nested objects; the `Subtopics`/`subtopics`/... variants
are `z.array(z.any())` (raw JSON elements). -/

structure AltMTChapter where
  Title : String
  Description : String
  Lessons : List String
deriving Repr, DecidableEq

structure AltMTSub where
  Title : String
  Description : String
  Chapters : List AltMTChapter
deriving Repr, DecidableEq

structure AltMainTopic where
  Title : String
  Description : String
  Subtopics : List AltMTSub
deriving Repr, DecidableEq

structure AltToc where
  mainTopic : Option String
  MainTopicF : Option AltMainTopic
  MainTopicSpaced : Option AltMainTopic
  CourseTitleCap : Option String
  courseTitleLower : Option String
  courseTitleCamel : Option String
  CourseDescCap : Option String
  courseDescLower : Option String
  courseDescCamel : Option String
  descriptionLower : Option String
  DescriptionCap : Option String
  subTopicsF : Option (List SubTopicT)
  SubtopicsCap : Option (List Json)
  subtopicsLower : Option (List Json)
  topicsLower : Option (List Json)
  TopicsCap : Option (List Json)
  SubDashTopics : Option (List Json)
  subDashTopics : Option (List Json)
deriving Repr

def parseAltMTChapter (j : Json) : Option AltMTChapter := do
  let fs ← asObj j
  let t ← reqField fs "Title" asStr
  let d ← reqField fs "Description" asStr
  let ls ← reqField fs "Lessons" (asArrOf asStr)
  pure ⟨t, d, ls⟩

def parseAltMTSub (j : Json) : Option AltMTSub := do
  let fs ← asObj j
  let t ← reqField fs "Title" asStr
  let d ← reqField fs "Description" asStr
  let cs ← reqField fs "Chapters" (asArrOf parseAltMTChapter)
  pure ⟨t, d, cs⟩

def parseAltMainTopic (j : Json) : Option AltMainTopic := do
  let fs ← asObj j
  let t ← reqField fs "Title" asStr
  let d ← reqField fs "Description" asStr
  let sts ← reqField fs "Subtopics" (asArrOf parseAltMTSub)
  pure ⟨t, d, sts⟩

/-- Title-ish fields of `AlternativeTocSchema` (grouped to keep the
monadic chains short). -/
def parseAltTocTitles (fs : List (String × Json)) :
    Option (Option String × Option AltMainTopic × Option AltMainTopic ×
            Option String × Option String × Option String) := do
  let mt ← optField fs "mainTopic" asStr
  let mtf ← optField fs "MainTopic" parseAltMainTopic
  let mts ← optField fs "Main Topic" parseAltMainTopic
  let ct1 ← optField fs "Course Title" asStr
  let ct2 ← optField fs "course title" asStr
  let ct3 ← optField fs "courseTitle" asStr
  pure (mt, mtf, mts, ct1, ct2, ct3)

/-- Description fields and typed `subTopics` of `AlternativeTocSchema`. -/
def parseAltTocDescs (fs : List (String × Json)) :
    Option (Option String × Option String × Option String × Option String ×
            Option String × Option (List SubTopicT)) := do
  let cd1 ← optField fs "Course Description" asStr
  let cd2 ← optField fs "course description" asStr
  let cd3 ← optField fs "courseDescription" asStr
  let dl ← optField fs "description" asStr
  let dc ← optField fs "Description" asStr
  let stf ← optField fs "subTopics" (asArrOf parseSubTopicT)
  pure (cd1, cd2, cd3, dl, dc, stf)

/-- The `z.array(z.any())` subtopic aliases of `AlternativeTocSchema`. -/
def parseAltTocArrays (fs : List (String × Json)) :
    Option (Option (List Json) × Option (List Json) × Option (List Json) ×
            Option (List Json) × Option (List Json) × Option (List Json)) := do
  let s1 ← optField fs "Subtopics" asArr
  let s2 ← optField fs "subtopics" asArr
  let s3 ← optField fs "topics" asArr
  let s4 ← optField fs "Topics" asArr
  let s5 ← optField fs "Sub-Topics" asArr
  let s6 ← optField fs "sub-topics" asArr
  pure (s1, s2, s3, s4, s5, s6)

/-- `AlternativeTocSchema.safeParse`. -/
def parseAltToc (j : Json) : Option AltToc := do
  let fs ← asObj j
  let (mt, mtf, mts, ct1, ct2, ct3) ← parseAltTocTitles fs
  let (cd1, cd2, cd3, dl, dc, stf) ← parseAltTocDescs fs
  let (s1, s2, s3, s4, s5, s6) ← parseAltTocArrays fs
  pure ⟨mt, mtf, mts, ct1, ct2, ct3, cd1, cd2, cd3, dl, dc, stf,
        s1, s2, s3, s4, s5, s6⟩

/-! ### Conversion from the alternative format (`generateTOC`, alias tier)

A `MainTopic`/`"Main Topic"` value converts through its typed fields; the
`"Course Title"` branch walks raw `z.any()` arrays, where property access
can throw (`null` elements) — modelled in `Except`. The converted object
is rebuilt as JSON and revalidated against the strict schema. -/

/-- One typed `Subtopics` entry (of `MainTopic`) rebuilt as JSON. -/
def altMTSubToJson (st : AltMTSub) : Json :=
  .obj [("title", .str st.Title),
        ("description", .str st.Description),
        ("chapters", .arr (st.Chapters.map (fun ch =>
          .obj [("title", .str ch.Title),
                ("description", .str ch.Description),
                ("lessons", .arr (ch.Lessons.map .str))])))]

/-- One raw chapter of the `"Course Title"` branch: alias resolution on
`z.any()` data, keeping unrecognized value shapes as-is. -/
def rawChapterToJson (ch : Json) : Except Unit Json := do
  let chTitle ← jsGetOr ch ["title", "Title", "name", "Name"] (.str "")
  let chDesc ←
    jsGetOr ch ["description", "Description", "desc", "summary"] (.str "")
  let lessonsRaw ← jsGetOr ch ["lessons", "Lessons"] (.arr [])
  let lessons := match lessonsRaw with
    | .arr ls => ls
    | _ => []
  pure (Json.obj [("title", chTitle), ("description", chDesc),
                  ("lessons", .arr lessons)])

/-- One raw subtopic of the `"Course Title"` branch: alias resolution on
`z.any()` data (`st.title || st.Title || st.name || st.Name || ''` etc.). -/
def rawSubToJson (st : Json) : Except Unit Json := do
  let title ← jsGetOr st ["title", "Title", "name", "Name"] (.str "")
  let descr ←
    jsGetOr st ["description", "Description", "desc", "summary"] (.str "")
  let chaptersRaw ←
    jsGetOr st ["chapters", "Chapters", "sections", "Sections"] (.arr [])
  let chapters ←
    match chaptersRaw with
    | .arr chs => chs.mapM rawChapterToJson
    | _ => pure []
  pure (Json.obj [("title", title), ("description", descr),
                  ("chapters", .arr chapters)])

/-- One typed `subTopics` entry rebuilt as JSON, with mixed lesson entries
collapsed to strings (`typeof lesson === 'string' ? lesson : lesson.title`).
-/
def typedSubToJson (st : SubTopicT) : Json :=
  .obj [("title", .str st.title),
        ("description", .str st.description),
        ("chapters", .arr (st.chapters.map (fun ch =>
          .obj [("title", .str ch.title),
                ("description", .str ch.description),
                ("lessons", .arr (ch.lessons.map (fun l =>
                  match l with
                  | .strL s => Json.str s
                  | .objL o => Json.str o.title)))])))]

/-- The alias-tier conversion (`generateTOC`, alternative-schema branch):
builds the normalized object that is subsequently revalidated. Throws
(`Except.error`) when raw-data property access hits a `null`. -/
def altConvert (data : AltToc) (topic : String) : Except Unit Json := do
  let descr0 := jsOrS data.descriptionLower data.DescriptionCap
  let (mainTopicV, descrV, subJson) ←
    match data.MainTopicF with
    | some mt =>
      pure (some mt.Title, some mt.Description,
            Json.arr (mt.Subtopics.map altMTSubToJson))
    | none =>
    match data.MainTopicSpaced with
    | some mt =>
      pure (some mt.Title, some mt.Description,
            Json.arr (mt.Subtopics.map altMTSubToJson))
    | none =>
    if strTruthy data.CourseTitleCap || strTruthy data.courseTitleLower
        || strTruthy data.courseTitleCamel then
      let mtv := jsOrS (jsOrS data.CourseTitleCap data.courseTitleLower)
        data.courseTitleCamel
      let dv := jsOrS (jsOrS (jsOrS data.CourseDescCap data.courseDescLower)
        data.courseDescCamel) (some ("Educational content about " ++ topic))
      let subtopicsArray := (jsOrArr data.subtopicsLower (jsOrArr
        data.SubtopicsCap (jsOrArr data.topicsLower (jsOrArr data.TopicsCap
        (jsOrArr data.SubDashTopics data.subDashTopics))))).getD []
      if subtopicsArray.length > 0 then do
        let subs ← subtopicsArray.mapM rawSubToJson
        pure (mtv, dv, Json.arr subs)
      else
        pure (mtv, dv, Json.arr [])
    else
      match data.subTopicsF with
      | some sts =>
        pure (data.mainTopic, descr0, Json.arr (sts.map typedSubToJson))
      | none =>
        pure (data.mainTopic, descr0, Json.arr [])
  pure (Json.obj
    [("mainTopic", .str (strOrD mainTopicV topic)),
     ("description",
      .str (strOrD descrV ("Educational content about " ++ topic))),
     ("subTopics", subJson)])

/-- The last-resort synthetic stub (`generateTOC`, catch branch): one
subtopic, one chapter, three lesson titles, derived from `state.topic`. -/
def stubToc (topic : String) : Toc :=
  { mainTopic := topic
    description := "Educational content about " ++ topic
    subTopics := [{
      title := "Understanding " ++ topic
      description := "Learn about " ++ topic
      chapters := [{
        title := "Introduction"
        description := "Basic introduction to " ++ topic
        lessons := [.strL "What is it?", .strL "Why is it important?",
                    .strL "Key concepts"] }] }] }

/-- The tiered TOC normalizer of the `generateTOC` node: strict schema,
then the alias conversion revalidated against the strict schema, then the
synthetic stub when anything in the fallback tier fails (zod mismatch,
conversion throw, or revalidation failure — all reach the `catch`).

The source continues with the pre-validation converted object; we return
the revalidated parse result, which agrees with it on every field
(revalidation only re-checks shapes, and success is required to proceed).
-/
def normalizeToc (j : Json) (topic : String) : Toc :=
  match parseToc j with
  | some t => t
  | none =>
    match parseAltToc j with
    | none => stubToc topic
    | some data =>
      match altConvert data topic with
      | .error _ => stubToc topic
      | .ok conv =>
        match parseToc conv with
        | some t => t
        | none => stubToc topic

/-! ### Strict lesson-content schema (`LessonContentSchema`)

Rich card-based lessons: `lessonInfo` and `videoScript` are required
`{title, description}` objects; card collections are optional.
`correctAnswer` is again an unbounded `z.number().int()`. -/

structure LessonInfo where
  title : String
  description : String
deriving Repr, DecidableEq

structure MemoryCard where
  title : String
  description : String
  situation : Option String
  response : Option String
deriving Repr, DecidableEq

structure OpenEnded where
  title : String
  description : Option String
deriving Repr, DecidableEq

structure RichLesson where
  lessonInfo : LessonInfo
  videoScript : LessonInfo
  memoryCards : Option (List MemoryCard)
  quizCards : Option (List QuizItem)
  openEndedQuestion : Option OpenEnded
  openEndedQuestions : Option (List OpenEnded)
deriving Repr, DecidableEq

structure LessonContent where
  lessons : List RichLesson
deriving Repr, DecidableEq

def parseLessonInfo (j : Json) : Option LessonInfo := do
  let fs ← asObj j
  let t ← reqField fs "title" asStr
  let d ← reqField fs "description" asStr
  pure ⟨t, d⟩

def parseMemoryCard (j : Json) : Option MemoryCard := do
  let fs ← asObj j
  let t ← reqField fs "title" asStr
  let d ← reqField fs "description" asStr
  let s ← optField fs "situation" asStr
  let r ← optField fs "response" asStr
  pure ⟨t, d, s, r⟩

def parseOpenEnded (j : Json) : Option OpenEnded := do
  let fs ← asObj j
  let t ← reqField fs "title" asStr
  let d ← optField fs "description" asStr
  pure ⟨t, d⟩

/-- The optional card collections of a rich lesson (grouped). -/
def parseRichCards (fs : List (String × Json)) :
    Option (Option (List MemoryCard) × Option (List QuizItem) ×
            Option OpenEnded × Option (List OpenEnded)) := do
  let mc ← optField fs "memoryCards" (asArrOf parseMemoryCard)
  let qc ← optField fs "quizCards" (asArrOf parseQuizItem)
  let oe ← optField fs "openEndedQuestion" parseOpenEnded
  let oes ← optField fs "openEndedQuestions" (asArrOf parseOpenEnded)
  pure (mc, qc, oe, oes)

def parseRichLesson (j : Json) : Option RichLesson := do
  let fs ← asObj j
  let li ← reqField fs "lessonInfo" parseLessonInfo
  let vs ← reqField fs "videoScript" parseLessonInfo
  let (mc, qc, oe, oes) ← parseRichCards fs
  pure ⟨li, vs, mc, qc, oe, oes⟩

/-- `LessonContentSchema.safeParse`. -/
def parseLessonContent (j : Json) : Option LessonContent := do
  let fs ← asObj j
  let ls ← reqField fs "lessons" (asArrOf parseRichLesson)
  pure ⟨ls⟩

/-- `AlternativeLessonContentSchema`: `lessons`/`Lessons` optional arrays
of `z.any()`, with a `catchall(z.any())` accepting any other keys. -/
structure AltLessons where
  lessons : Option (List Json)
  Lessons : Option (List Json)
deriving Repr

/-- `AlternativeLessonContentSchema.safeParse`. -/
def parseAltLessonContent (j : Json) : Option AltLessons := do
  let fs ← asObj j
  let l1 ← optField fs "lessons" asArr
  let l2 ← optField fs "Lessons" asArr
  pure ⟨l1, l2⟩

/-! ### Serialization of zod output back to JSON values

`safeParse` success data is the stripped object; these rebuild it so a
processed chapter is a JSON value again (optional fields absent when
`undefined`). -/

def lessonInfoToJson (li : LessonInfo) : Json :=
  .obj [("title", .str li.title), ("description", .str li.description)]

def memoryCardToJson (mc : MemoryCard) : Json :=
  .obj ([("title", Json.str mc.title), ("description", Json.str mc.description)]
    ++ (match mc.situation with
        | some s => [("situation", Json.str s)]
        | none => [])
    ++ (match mc.response with
        | some r => [("response", Json.str r)]
        | none => []))

def openEndedToJson (oe : OpenEnded) : Json :=
  .obj ([("title", Json.str oe.title)]
    ++ (match oe.description with
        | some d => [("description", Json.str d)]
        | none => []))

def quizItemToJson (q : QuizItem) : Json :=
  .obj [("question", .str q.question),
        ("options", .arr (q.options.map .str)),
        ("correctAnswer", .num q.correctAnswer)]

def richLessonToJson (l : RichLesson) : Json :=
  .obj ([("lessonInfo", lessonInfoToJson l.lessonInfo),
         ("videoScript", lessonInfoToJson l.videoScript)]
    ++ (match l.memoryCards with
        | some cs => [("memoryCards", Json.arr (cs.map memoryCardToJson))]
        | none => [])
    ++ (match l.quizCards with
        | some qs => [("quizCards", Json.arr (qs.map quizItemToJson))]
        | none => [])
    ++ (match l.openEndedQuestion with
        | some oe => [("openEndedQuestion", openEndedToJson oe)]
        | none => [])
    ++ (match l.openEndedQuestions with
        | some oes => [("openEndedQuestions", Json.arr (oes.map openEndedToJson))]
        | none => []))

/-! ### Lesson normalization (`generateChapterContent`, alternative branch)

Port of the `lessonArray.map(lesson => ...)` body: a lesson that already
has `lessonInfo` plus any card field is returned unchanged; otherwise the
old `{title, content, quiz}` format is converted to the rich shape. The
conversion dereferences `lesson.videoScript.title`, which throws when the
lesson has no `videoScript` — the throw is modelled as `Except.error`. -/

/-- `content.substring(0, n)`: calling `.substring` on a non-string value
throws. -/
def jsSubstring (j : Json) (n : Nat) : Except Unit String :=
  match j with
  | .str s => .ok (s.take n)
  | _ => .error ()

/-- `lesson.memoryCards || lesson.quizCards || lesson.openEndedQuestion ||
lesson.openEndedQuestions`, as a truthiness test. -/
def cardFieldsTruthy (lesson : Json) : Except Unit Bool := do
  let mc ← jsGet lesson "memoryCards"
  let qc ← jsGet lesson "quizCards"
  let oe ← jsGet lesson "openEndedQuestion"
  let oes ← jsGet lesson "openEndedQuestions"
  pure (mc.isTruthy || qc.isTruthy || oe.isTruthy || oes.isTruthy)

/-- `Array.isArray(q.options) ? q.options : Array.isArray(q.Options) ?
q.Options : Array.isArray(q.choices) ? q.choices : []`. -/
def quizOptionsOf (q : Json) : Except Unit Json := do
  let o1 ← jsGet q "options"
  let o2 ← jsGet q "Options"
  let o3 ← jsGet q "choices"
  pure (if o1.isArr then o1 else if o2.isArr then o2
        else if o3.isArr then o3 else .arr [])

/-- `typeof q.correctAnswer === 'number' ? q.correctAnswer : ... : 0`. -/
def quizCorrectOf (q : Json) : Except Unit Json := do
  let c1 ← jsGet q "correctAnswer"
  let c2 ← jsGet q "CorrectAnswer"
  let c3 ← jsGet q "correct"
  pure (if c1.isNum then c1 else if c2.isNum then c2
        else if c3.isNum then c3 else .num 0)

/-- Per-item quiz normalization (`quizArray.map(q => ...)`). -/
def normalizeQuizItem (q : Json) : Except Unit Json := do
  let question ← jsGetOr q ["question", "Question"] (.str "")
  let options ← quizOptionsOf q
  let correct ← quizCorrectOf q
  pure (.obj [("question", question), ("options", options),
              ("correctAnswer", correct)])

/-- The re-projection `normalizedQuiz.map(q => ({question: q.question,
options: q.options, correctAnswer: q.correctAnswer}))`. -/
def reprojectQuizItem (q : Json) : Except Unit Json := do
  let question ← jsGet q "question"
  let options ← jsGet q "options"
  let correct ← jsGet q "correctAnswer"
  pure (.obj [("question", question), ("options", options),
              ("correctAnswer", correct)])

/-- `{title: lesson.videoScript.title || '', description:
lesson.videoScript.description || ''}` — throws when `lesson.videoScript`
is `undefined` (the old minimal format). -/
def videoScriptOf (lesson : Json) : Except Unit (Json × Json) := do
  let vs ← jsGet lesson "videoScript"
  let vt ← jsGet vs "title"
  let vd ← jsGet vs "description"
  pure (jsOr vt (.str ""), jsOr vd (.str ""))

/-- The fixed feedback question attached to converted lessons. -/
def feedbackQuestion : Json :=
  .obj [("title", .str "Was this lesson easy to understand?"),
        ("description", .str "✅ Yes, everything was clear\n🤔 Mostly clear, but I had questions\n😐 Some parts were confusing\n❌ No, I didn\x27t understand it")]

/-- Conversion of an old-format lesson to the rich shape (the tail of the
`map` body, after the pass-through check). -/
def oldFormatToRich (lesson : Json) : Except Unit Json := do
  let title ← jsGetOr lesson ["title", "Title", "name", "Name"] (.str "")
  let content ← jsGetOr lesson ["content", "Content"] (.str "")
  let quizArray ← jsGetOr lesson ["quiz", "Quiz", "questions", "Questions"]
    (.arr [])
  let normalizedQuiz ←
    match quizArray with
    | .arr qs => qs.mapM normalizeQuizItem
    | _ => pure []
  let contentHead ← jsSubstring content 100
  let (vt, vd) ← videoScriptOf lesson
  let quizCards ← normalizedQuiz.mapM reprojectQuizItem
  pure (.obj
    [("lessonInfo", .obj [("title", title),
        ("description", .str (contentHead ++ "..."))]),
     ("videoScript", .obj [("title", vt), ("description", vd)]),
     ("memoryCards", .arr [.obj [("title", .str "Content Summary"),
        ("description", content)]]),
     ("quizCards", .arr quizCards),
     ("openEndedQuestion", feedbackQuestion)])

/-- The per-lesson normalizer (`lessonArray.map(lesson => ...)`). -/
def normalizeLesson (lesson : Json) : Except Unit Json := do
  let li ← jsGet lesson "lessonInfo"
  let cards ← cardFieldsTruthy lesson
  if li.isTruthy && cards then
    pure lesson
  else
    oldFormatToRich lesson

/-! ### Per-chapter processing (`generateChapterContent`)

The LLM invocation outcome for a chapter is abstracted as an
`Except ErrInfo Json` oracle keyed by the chapter's memory key: `.error`
models the chain throwing (network/auth failure), `.ok` the parsed JSON
result (an unparseable completion already yields the
`{error: "Failed to parse response"}` sentinel inside the chain, i.e. an
`.ok` object). The chapter-level vector search is absorbed into the
oracle: its failures are caught (`.catch(() => [])`) and only influence
prompt text, never the result shape. -/

/-- A thrown JS error, as observed by the catch blocks (`error.message`,
`error.stack`). -/
structure ErrInfo where
  message : String
  stack : Option String
deriving Repr, DecidableEq

/-- A cached string abstracted by its parse outcome: `jsonOf j` is a
nonempty string with `JSON.parse` result `j`; `garbage` is a nonempty
unparseable string. The empty string behaves exactly like a missing key
(`memoryCache[key] || ""` is falsy), so both are the absent case. -/
inductive CacheStr where
  | jsonOf (j : Json)
  | garbage
deriving Repr

/-- The memoization store (`SupabaseVectorStoreMemory.memoryCache`),
restricted to one session: later writes shadow earlier ones. -/
def CacheMap := List (String × CacheStr)

def cacheLookup (c : CacheMap) (k : String) : Option CacheStr :=
  List.lookup k c

def cachePut (c : CacheMap) (k : String) (v : CacheStr) : CacheMap :=
  (k, v) :: c

/-- Steps 106–121 of `generateChapterContent`: a truthy cached string is
`JSON.parse`d (a parse throw is caught and yields `null`); afterwards the
`if (!processedChapter)` guard treats any falsy parse result as a miss. -/
def chapterFromCache (v : Option CacheStr) : Option Json :=
  match v with
  | some (.jsonOf j) => if j.isTruthy then some j else none
  | some .garbage => none
  | none => none

/-- The error lesson built in the inner catch (`Error normalizing chapter
data`): validation failures and normalization throws. -/
def errorLessonNormalize : Json :=
  .obj [("lessonInfo", .obj
          [("title", .str "Error generating content"),
           ("description",
            .str "There was an error generating the lesson content.")]),
        ("memoryCards", .arr [.obj
          [("title", .str "Error"),
           ("description", .str "The API response format may have changed or the content generation failed.")]]),
        ("quizCards", .arr [])]

def errorChapterNormalize (ch : ChapterT) : Json :=
  .obj [("title", .str ch.title), ("description", .str ch.description),
        ("lessons", .arr [errorLessonNormalize])]

/-- The error lesson built in the outer catch (`Error in chapter chain`):
the LLM chain itself threw. `error.message || "Unknown error"`;
`error.stack ? error.stack.substring(0, 500) : ...`. -/
def errorLessonChain (e : ErrInfo) : Json :=
  .obj [("lessonInfo", .obj
          [("title", .str "Error in content generation"),
           ("description", .str ("Error: " ++
            (if e.message = "" then "Unknown error" else e.message)))]),
        ("memoryCards", .arr [.obj
          [("title", .str "Technical Details"),
           ("description", .str (match e.stack with
             | some s =>
                if s = "" then "No additional details available"
                else s.take 500
             | none => "No additional details available"))]]),
        ("quizCards", .arr [])]

def errorChapterChain (ch : ChapterT) (e : ErrInfo) : Json :=
  .obj [("title", .str ch.title), ("description", .str ch.description),
        ("lessons", .arr [errorLessonChain e])]

/-- A normally generated chapter: the chapter's own title/description with
the strictly validated lessons (`{title, description, lessons:
parsed.data.lessons}`). -/
def normalChapter (ch : ChapterT) (parsed : LessonContent) : Json :=
  .obj [("title", .str ch.title), ("description", .str ch.description),
        ("lessons", .arr (parsed.lessons.map richLessonToJson))]

/-- Cache-miss generation of one chapter (lines 700–836): run the chain,
then validate with the strict schema, else the alternative schema with
per-lesson normalization; a validation failure or a normalization throw is
caught into the synthetic normalize-error chapter, a chain throw into the
chain-error chapter. Total by construction: no exception escapes. -/
def genChapter (ch : ChapterT) (llmResult : Except ErrInfo Json) : Json :=
  match llmResult with
  | .error e => errorChapterChain ch e
  | .ok chapterData =>
    match parseLessonContent chapterData with
    | some parsed => normalChapter ch parsed
    | none =>
      match parseAltLessonContent chapterData with
      | none => errorChapterNormalize ch
      | some alt =>
        let lessonArray := (jsOrArr alt.lessons alt.Lessons).getD []
        match lessonArray.mapM normalizeLesson with
        | .error _ => errorChapterNormalize ch
        | .ok ls =>
          .obj [("title", .str ch.title), ("description", .str ch.description),
                ("lessons", .arr ls)]

/-- Outcome of processing one chapter: the chapter JSON, the number of LLM
invocations issued (0 on a usable cache hit, 1 otherwise), and the cache
after the step (`memory.saveContext` runs only on the miss path). -/
structure ChapResult where
  chapter : Json
  llmCalls : Nat
  cache : CacheMap

/-- One chapter of the per-subtopic loop: memory lookup under
`` `${subtopic.title}-${chapter.title}` ``, then either the cached chapter
or a fresh generation that is written back to the cache. -/
def processChapter (cache : CacheMap) (llm : String → Except ErrInfo Json)
    (subTitle : String) (ch : ChapterT) : ChapResult :=
  let memoryKey := subTitle ++ "-" ++ ch.title
  match chapterFromCache (cacheLookup cache memoryKey) with
  | some j => ⟨j, 0, cache⟩
  | none =>
    let c := genChapter ch (llm memoryKey)
    ⟨c, 1, cachePut cache memoryKey (.jsonOf c)⟩

/-- The sequential chapter loop of one subtopic, threading the cache. -/
def processChapters (llm : String → Except ErrInfo Json) (subTitle : String) :
    CacheMap → List ChapterT → List Json × CacheMap
  | cache, [] => ([], cache)
  | cache, ch :: rest =>
    let r := processChapter cache llm subTitle ch
    let (cs, cache') := processChapters llm subTitle r.cache rest
    (r.chapter :: cs, cache')

/-- A processed subtopic in the assembled tree. -/
structure GenSubTopic where
  title : String
  description : String
  chapters : List Json
deriving Repr

/-- One parallel subtopic task (`state.toc.subTopics.map(async ...)`); each
task starts from the run's initial cache and threads only its own writes —
faithful to the parallel semantics as long as no two concurrent tasks share
a chapter key (the documented invariant: keys are unique per task). -/
def processSubtopicResult (cache : CacheMap)
    (llm : String → Except ErrInfo Json) (sub : SubTopicT) : GenSubTopic :=
  ⟨sub.title, sub.description,
   (processChapters llm sub.title cache sub.chapters).1⟩

/-! ### Pipeline state and stages

`EducationState` from `app/lib/types/education.ts` restricted to the
fields the pipeline reads/writes (`memory` and the `currentSubtopic`/
`currentChapter` slots are threaded through untouched and elided).
History message contents are strings in the source; a content string is
abstracted by its `JSON.parse` outcome (`jsonOf`/`garbage`), which is all
the recovery path observes. `AIMessage(JSON.stringify(v))` is therefore
modelled as `.jsonOf v` and plain-text messages as `.garbage`. -/

inductive StrVal where
  | jsonOf (j : Json)
  | garbage
deriving Repr

structure Chunk where
  pageContent : String
deriving Repr, DecidableEq

structure GenContent where
  mainTopic : String
  description : String
  subTopics : List GenSubTopic
deriving Repr

structure EducationState where
  topic : String
  context : List Chunk
  mainTopic : Option String
  description : Option String
  toc : Option Toc
  generatedContent : Option GenContent
  history : List StrVal
  error : Option String
deriving Repr

/-! Serialization of a normalized TOC back to JSON (what
`JSON.stringify(normalizedTocData)` persists and the history carries). -/

def lessonEntryToJson : LessonEntry → Json
  | .strL s => .str s
  | .objL l =>
    .obj ([("title", Json.str l.title)]
      ++ (match l.content with
          | some c => [("content", Json.str c)]
          | none => [])
      ++ (match l.quiz with
          | some qs => [("quiz", Json.arr (qs.map quizItemToJson))]
          | none => []))

def chapterToJson (ch : ChapterT) : Json :=
  .obj [("title", .str ch.title), ("description", .str ch.description),
        ("lessons", .arr (ch.lessons.map lessonEntryToJson))]

def subTopicToJson (st : SubTopicT) : Json :=
  .obj [("title", .str st.title), ("description", .str st.description),
        ("chapters", .arr (st.chapters.map chapterToJson))]

def tocToJson (t : Toc) : Json :=
  .obj [("mainTopic", .str t.mainTopic), ("description", .str t.description),
        ("subTopics", .arr (t.subTopics.map subTopicToJson))]

/-- `retrieveContext` (education-nodes): pre-supplied context is kept;
otherwise the semantic-search collaborator fills it (its failures are
caught to `[]`, so the oracle is just the resulting chunk list). -/
def retrieveContext (searchResults : List Chunk) (state : EducationState) :
    EducationState :=
  if state.context.length > 0 then state
  else { state with context := searchResults }

/-- The `generateTOC` node (education-nodes variant): the LLM outcome is
an `Except` oracle; a throw is caught into `error`; otherwise the response
is normalized, defensively checked (in the typed model only
`mainTopic = ""` can fail the `!mainTopic || !subTopics || !Array.isArray`
check), persisted under `` `TOC for ${topic}` ``, and recorded in the
history. -/
def generateTOC (cache : CacheMap) (llm : Except ErrInfo Json)
    (state : EducationState) : EducationState × CacheMap :=
  match llm with
  | .error e =>
    ({ state with error := some ("Failed to generate TOC: " ++ e.message) },
     cache)
  | .ok tocData =>
    let normalized := normalizeToc tocData state.topic
    if normalized.mainTopic = "" then
      ({ state with error := some "Invalid TOC data structure. API response format may have changed." },
       cache)
    else
      ({ state with
          mainTopic := some normalized.mainTopic
          description := some normalized.description
          toc := some normalized
          history := state.history ++ [.garbage, .jsonOf (tocToJson normalized)] },
       cachePut cache ("TOC for " ++ state.topic)
         (.jsonOf (tocToJson normalized)))

/-- TOC recovery from the last history message (`generateChapterContent`,
lines 37–72): parse the last message content as JSON and validate against
the strict schema; any failure leaves the state unchanged. -/
def recoverToc (state : EducationState) : EducationState :=
  match state.toc with
  | some _ => state
  | none =>
    if state.history.length ≥ 2 then
      match state.history.getLast? with
      | some (.jsonOf j) =>
        match parseToc j with
        | some t =>
          { state with toc := some t, mainTopic := some t.mainTopic,
                       description := some t.description }
        | none => state
      | _ => state
    else state

/-- The `generateChapterContent` node: recovery, fatal missing-TOC check,
parallel per-subtopic fan-out joined by `Promise.all` (denotationally the
index-ordered map — the operational scheduler model below justifies this),
and assembly into `generatedContent`. -/
def generateChapterContent (cache : CacheMap)
    (llm : String → Except ErrInfo Json) (state0 : EducationState) :
    EducationState :=
  let state := recoverToc state0
  match state.toc with
  | none =>
    { state with error := some "TOC data missing. Cannot generate educational content without structure." }
  | some toc =>
    let fullContent := match state.generatedContent with
      | some gc => gc
      | none =>
        { mainTopic := strOrD state.mainTopic toc.mainTopic
          description := strOrD state.description toc.description
          subTopics := [] }
    let processed := toc.subTopics.map (processSubtopicResult cache llm)
    { state with
        generatedContent := some { fullContent with subTopics := processed }
        history := state.history ++ [.garbage,
          .jsonOf (.obj [("status", .str "success"),
                         ("subtopicsCount", .num processed.length)])] }

/-- The sequential pipeline orchestrator
(`createEducationGraph().invoke`, fix-template sequential variant):
context → TOC → missing-TOC short-circuit → content. The surrounding
`try/catch` that converts stage throws into an `error` state is
unreachable in the model because every stage is total (each catches its
own collaborator failures), which is exactly the property it defends. -/
def runPipeline (search : List Chunk) (tocLlm : Except ErrInfo Json)
    (cache : CacheMap) (chapLlm : String → Except ErrInfo Json)
    (input : EducationState) : EducationState :=
  let s1 := retrieveContext search input
  let s2c := generateTOC cache tocLlm s1
  match s2c.1.toc with
  | none => { s2c.1 with error := some "TOC data was not generated properly" }
  | some _ => generateChapterContent s2c.2 chapLlm s2c.1

/-! ### Operational model of the parallel fan-out

`state.toc.subTopics.map(async ...)` starts one task per subtopic;
`Promise.all` resolves with the results **in index order**, regardless of
the order in which the tasks complete. The model: each task owns slot `i`;
a completion schedule is the order in which tasks finish; completing task
`i` writes its result into slot `i`; `Promise.all` then reads the slots in
index order (failing if any slot is still empty). -/

def runSched (f : SubTopicT → GenSubTopic) (subs : List SubTopicT) :
    List Nat → List (Option GenSubTopic) → List (Option GenSubTopic)
  | [], slots => slots
  | i :: rest, slots =>
    runSched f subs rest
      (match subs[i]? with
       | some sub => slots.set i (some (f sub))
       | none => slots)

/-- `Promise.all`: gather the slots in index order; every task must have
completed. -/
def promiseAll : List (Option GenSubTopic) → Option (List GenSubTopic)
  | [] => some []
  | none :: _ => none
  | some a :: rest => (promiseAll rest).map (a :: ·)

/-! ### Claim-statement helper definitions -/

/-- All real parsing tiers of `normalizeToc` fail: the strict parse fails,
and if the alternative parse succeeds, the conversion either throws or its
result fails revalidation. -/
def tocTiersFail (j : Json) (topic : String) : Prop :=
  parseToc j = none ∧
  ∀ d, parseAltToc j = some d →
    ∀ c, altConvert d topic = .ok c → parseToc c = none

/-- The input of the spec's alias-resolution example:
`{"MainTopic": {"Title": "X", "Description": "Y", "Subtopics": []}}`. -/
def aliasExampleInput : Json :=
  .obj [("MainTopic", .obj [("Title", .str "X"), ("Description", .str "Y"),
        ("Subtopics", .arr [])])]

/-! ## Shared lemmas about the scheduler and the chapter loop -/

theorem runSched_length (f : SubTopicT → GenSubTopic) (subs : List SubTopicT) :
    ∀ (sched : List Nat) (slots : List (Option GenSubTopic)),
      (runSched f subs sched slots).length = slots.length := by
  intro sched
  induction sched with
  | nil => intro slots; rfl
  | cons i rest ih =>
    intro slots
    simp only [runSched]
    cases h : subs[i]? with
    | none => simp [ih]
    | some sub => simp [ih]

theorem runSched_get_not_mem (f : SubTopicT → GenSubTopic)
    (subs : List SubTopicT) :
    ∀ (sched : List Nat) (slots : List (Option GenSubTopic)) (k : Nat),
      k ∉ sched → (runSched f subs sched slots)[k]? = slots[k]? := by
  intro sched
  induction sched with
  | nil => intro slots k _; rfl
  | cons i rest ih =>
    intro slots k hk
    have hki : k ≠ i := fun h => hk (h ▸ List.mem_cons_self i rest)
    have hkr : k ∉ rest := fun h => hk (List.mem_cons_of_mem i h)
    simp only [runSched]
    cases h : subs[i]? with
    | none => exact ih _ k hkr
    | some sub =>
      rw [ih _ k hkr, List.getElem?_set_ne (Ne.symm hki)]

theorem runSched_get_mem (f : SubTopicT → GenSubTopic)
    (subs : List SubTopicT) :
    ∀ (sched : List Nat) (slots : List (Option GenSubTopic)) (k : Nat)
      (_ : k ∈ sched) (hks : k < subs.length)
      (_ : slots.length = subs.length),
      (runSched f subs sched slots)[k]? =
        some (some (f (subs.get ⟨k, hks⟩))) := by
  intro sched
  induction sched with
  | nil => intro slots k hk _ _; exact absurd hk (List.not_mem_nil k)
  | cons i rest ih =>
    intro slots k hk hks hlen
    by_cases hkr : k ∈ rest
    · simp only [runSched]
      cases h : subs[i]? with
      | none => exact ih _ k hkr hks hlen
      | some sub => exact ih _ k hkr hks (by simp [hlen])
    · have hki : k = i := by
        rcases List.mem_cons.mp hk with h | h
        · exact h
        · exact absurd h hkr
      subst hki
      have hsub : subs[k]? = some (subs.get ⟨k, hks⟩) :=
        List.getElem?_eq_getElem hks
      simp only [runSched, hsub]
      rw [runSched_get_not_mem f subs rest _ k hkr]
      exact List.getElem?_set_eq_of_lt _ (by rw [hlen]; exact hks)

theorem promiseAll_map_some (l : List GenSubTopic) :
    promiseAll (l.map some) = some l := by
  induction l with
  | nil => rfl
  | cons a rest ih =>
    simp [promiseAll, ih]

theorem cacheLookup_put_ne (c : CacheMap) (k : String) (v : CacheStr)
    (k2 : String) (h : k2 ≠ k) :
    cacheLookup (cachePut c k v) k2 = cacheLookup c k2 := by
  have hb : (k2 == k) = false := beq_eq_false_iff_ne.mpr h
  simp [cacheLookup, cachePut, List.lookup, hb]

/-- With a cache that misses every chapter key and pairwise-distinct keys,
the sequential chapter loop behaves as a pure map of `genChapter` over the
chapters: each chapter is generated from its own oracle outcome alone. -/
theorem processChapters_all_miss (llm : String → Except ErrInfo Json)
    (subTitle : String) :
    ∀ (chs : List ChapterT) (cache : CacheMap),
      (∀ ch ∈ chs, chapterFromCache
        (cacheLookup cache (subTitle ++ "-" ++ ch.title)) = none) →
      (chs.map (fun ch => subTitle ++ "-" ++ ch.title)).Nodup →
      (processChapters llm subTitle cache chs).1 =
        chs.map (fun ch => genChapter ch (llm (subTitle ++ "-" ++ ch.title)))
    := by
  intro chs
  induction chs with
  | nil => intro cache _ _; rfl
  | cons ch rest ih =>
    intro cache hm hnd
    have h0 := hm ch (List.mem_cons_self _ _)
    have hr : processChapter cache llm subTitle ch =
        ⟨genChapter ch (llm (subTitle ++ "-" ++ ch.title)), 1,
         cachePut cache (subTitle ++ "-" ++ ch.title)
           (.jsonOf (genChapter ch (llm (subTitle ++ "-" ++ ch.title))))⟩ := by
      simp [processChapter, h0]
    have hrest : ∀ ch2 ∈ rest, chapterFromCache (cacheLookup
        (cachePut cache (subTitle ++ "-" ++ ch.title)
          (.jsonOf (genChapter ch (llm (subTitle ++ "-" ++ ch.title)))))
        (subTitle ++ "-" ++ ch2.title)) = none := by
      intro ch2 hmem
      have hne : (subTitle ++ "-" ++ ch2.title) ≠
          (subTitle ++ "-" ++ ch.title) := by
        intro hcontra
        have hmm : subTitle ++ "-" ++ ch2.title ∈
            rest.map (fun c => subTitle ++ "-" ++ c.title) :=
          List.mem_map_of_mem (fun c => subTitle ++ "-" ++ c.title) hmem
        rw [hcontra] at hmm
        exact (List.nodup_cons.mp hnd).1 hmm
      rw [cacheLookup_put_ne _ _ _ _ hne]
      exact hm ch2 (List.mem_cons_of_mem _ hmem)
    simp only [processChapters, hr, List.map_cons]
    rw [ih _ hrest (List.nodup_cons.mp hnd).2]

/-! ## Claims about TOC normalization (C1, C7) -/

/-- C1 (counterexample): the input
`{mainTopic: "X", description: "Y", subTopics: []}` passes the strict
schema tier unchanged, so TOC normalization returns it with
`subTopics.length = 0` — refuting the claim that every normalized result
has `subTopics.length >= 1`. -/
theorem toc_nonempty_cex :
    normalizeToc (Json.obj [("mainTopic", .str "X"), ("description", .str "Y"),
        ("subTopics", .arr [])]) "X" = ⟨"X", "Y", []⟩ ∧
      ¬ 1 ≤ (normalizeToc (Json.obj [("mainTopic", .str "X"),
        ("description", .str "Y"), ("subTopics", .arr [])])
        "X").subTopics.length := by
  decide

/-- C1 (amended): whenever every real parsing tier fails, `normalizeToc`
substitutes the deterministic synthetic stub — one subtopic, one chapter,
three lesson titles — so in that case `subTopics` is never left empty or
undefined and every chapter has at least one lesson. (Inputs that validate
with empty arrays are returned unchanged, so the bounds do not hold for
all inputs.) -/
theorem toc_stub_on_total_failure (j : Json) (topic : String)
    (h : tocTiersFail j topic) :
    normalizeToc j topic = stubToc topic ∧
      (stubToc topic).subTopics.length = 1 ∧
      ∀ st ∈ (stubToc topic).subTopics, ∀ ch ∈ st.chapters,
        1 ≤ ch.lessons.length := by
  obtain ⟨h1, h2⟩ := h
  refine ⟨?_, by simp [stubToc], ?_⟩
  · unfold normalizeToc
    rw [h1]
    cases halt : parseAltToc j with
    | none => rfl
    | some d =>
      dsimp only
      cases hconv : altConvert d topic with
      | error e => rfl
      | ok c =>
        dsimp only
        rw [h2 d halt c hconv]
  · intro st hst ch hch
    simp only [stubToc, List.mem_singleton] at hst
    subst hst
    simp only [List.mem_singleton] at hch
    subst hch
    simp

/-- C1 (witness): at `Json.null` all tiers fail and the stub is produced.
-/
theorem toc_stub_on_total_failure_witness :
    normalizeToc Json.null "T" = stubToc "T" ∧
      (stubToc "T").subTopics.length = 1 ∧
      ∀ st ∈ (stubToc "T").subTopics, ∀ ch ∈ st.chapters,
        1 ≤ ch.lessons.length :=
  toc_stub_on_total_failure Json.null "T" ⟨rfl, fun _ hd => nomatch hd⟩

/-- C7 (counterexample): the alias-resolution example does NOT end in the
synthetic stub: the converted `{mainTopic: "X", description: "Y",
subTopics: []}` passes revalidation (empty arrays validate), so no
one-subtopic stub titled `Understanding X` is produced. -/
theorem toc_alias_no_stub_cex :
    (normalizeToc aliasExampleInput "X").subTopics.length ≠ 1 := by
  decide

/-- C7 (amended): `{"MainTopic": {Title: "X", Description: "Y",
Subtopics: []}}` normalizes through the alias tier to
`{mainTopic: "X", description: "Y", subTopics: []}`, which passes the
final strict validation, so the synthetic stub is not applied and the
empty `subTopics` array is kept. -/
theorem toc_alias_resolution :
    normalizeToc aliasExampleInput "X" = ⟨"X", "Y", []⟩ := by
  decide

/-! ## Claims about lesson-content normalization (C5, C6, C8) -/

/-- Reduction of a successful `Except` bind (shared proof helper). -/
@[simp] theorem exceptBindOk {ε α β : Type} (a : α) (f : α → Except ε β) :
    ((Except.ok a : Except ε α) >>= f) = f a := rfl

/-- `pure` on `Except` is `ok` (shared proof helper). -/
@[simp] theorem exceptPureOk {ε α : Type} (a : α) :
    (pure a : Except ε α) = Except.ok a := rfl

/-- C5: a lesson already in canonical rich form — truthy `lessonInfo` plus
any of the card fields — passes through `normalizeLesson` unchanged, hence
normalization is idempotent on such lessons. -/
theorem normalize_rich_passthrough (lesson li : Json)
    (h1 : jsGet lesson "lessonInfo" = .ok li)
    (h2 : li.isTruthy = true)
    (h3 : cardFieldsTruthy lesson = .ok true) :
    normalizeLesson lesson = .ok lesson ∧
      (normalizeLesson lesson).bind normalizeLesson =
        normalizeLesson lesson := by
  have key : normalizeLesson lesson = .ok lesson := by
    simp [normalizeLesson, h1, h2, h3]
  refine ⟨key, ?_⟩
  rw [key]
  exact key

/-- C5 (witness): a concrete canonical rich lesson is passed through
unchanged. -/
theorem normalize_rich_passthrough_witness :
    normalizeLesson (.obj [("lessonInfo", .obj [("title", .str "T"),
        ("description", .str "D")]), ("quizCards", .arr [])]) =
      .ok (.obj [("lessonInfo", .obj [("title", .str "T"),
        ("description", .str "D")]), ("quizCards", .arr [])]) ∧
      (normalizeLesson (.obj [("lessonInfo", .obj [("title", .str "T"),
        ("description", .str "D")]), ("quizCards", .arr [])])).bind
          normalizeLesson =
        normalizeLesson (.obj [("lessonInfo", .obj [("title", .str "T"),
        ("description", .str "D")]), ("quizCards", .arr [])]) :=
  normalize_rich_passthrough _ _ rfl rfl rfl

/-- C6: normalizing a minimal `{title, content, quiz}` lesson (no
`videoScript`) throws — `lesson.videoScript.title` is a property access on
`undefined` — so the whole chapter normalization lands in the catch and the
chapter becomes the synthetic normalize-error chapter instead of the
synthesized rich shape. -/
theorem minimal_lesson_conversion_throws :
    normalizeLesson (.obj [("title", .str "Intro"),
        ("content", .str "Body"), ("quiz", .arr [])]) = .error () ∧
      genChapter ⟨"Ch1", "d1", []⟩
        (.ok (.obj [("lessons", .arr [.obj [("title", .str "Intro"),
          ("content", .str "Body"), ("quiz", .arr [])]])])) =
        errorChapterNormalize ⟨"Ch1", "d1", []⟩ := by
  exact ⟨rfl, rfl⟩

/-- C8 (counterexample): a quiz item with two options and a numeric
correct-answer index of `5` is passed through unmodified by quiz
normalization, so `0 <= correctAnswer < options.length` (and the 4-option
convention) fail on produced items. -/
theorem quiz_bounds_cex :
    normalizeQuizItem (.obj [("question", .str "q"),
        ("options", .arr [.str "a", .str "b"]), ("correctAnswer", .num 5)]) =
      .ok (.obj [("question", .str "q"),
        ("options", .arr [.str "a", .str "b"]),
        ("correctAnswer", .num 5)]) ∧
      ¬ ((0 : Int) ≤ 5 ∧ (5 : Int) <
          (([ "a", "b" ] : List String).length : Int)) ∧
      ([ "a", "b" ] : List String).length ≠ 4 := by
  refine ⟨rfl, by decide, by decide⟩

/-- C8 (amended): when every correct-answer alias (`correctAnswer`,
`CorrectAnswer`, `correct`) is missing or non-numeric, the produced quiz
item carries `correctAnswer = 0`; numeric indices are preserved without
any bound check (see the counterexample). -/
theorem quiz_correct_default (fs : List (String × Json))
    (h1 : ((fs.lookup "correctAnswer").getD .null).isNum = false)
    (h2 : ((fs.lookup "CorrectAnswer").getD .null).isNum = false)
    (h3 : ((fs.lookup "correct").getD .null).isNum = false) :
    ∀ out, normalizeQuizItem (.obj fs) = .ok out →
      jsGet out "correctAnswer" = .ok (.num 0) := by
  intro out hout
  simp only [normalizeQuizItem, jsGetOr, jsGet, quizOptionsOf, quizCorrectOf,
    exceptBindOk, exceptPureOk, Except.ok.injEq, h1, h2, h3,
    Bool.false_eq_true, if_false] at hout
  subst hout
  rfl

/-- C8 (witness): a quiz item with a string `correctAnswer` defaults to
`0`. -/
theorem quiz_correct_default_witness :
    normalizeQuizItem (.obj [("question", .str "q"), ("options", .arr []),
        ("correctAnswer", .str "two")]) =
      .ok (.obj [("question", .str "q"), ("options", .arr []),
        ("correctAnswer", .num 0)]) ∧
      jsGet (.obj [("question", .str "q"), ("options", .arr []),
        ("correctAnswer", .num 0)]) "correctAnswer" = .ok (.num 0) :=
  ⟨rfl, quiz_correct_default [("question", .str "q"), ("options", .arr []),
    ("correctAnswer", .str "two")] rfl rfl rfl _ rfl⟩

/-! ## Claims about chapter caching (C9, C10) -/

/-- C9 (counterexample): the cache entry `"null"` under the chapter key is
parseable JSON, yet the chapter is regenerated with one LLM call — the
code treats any falsy parse result as a miss, so "parseable entry implies
zero LLM calls" fails. -/
theorem cache_parseable_null_cex :
    (processChapter [("A-B", .jsonOf .null)]
      (fun _ => .ok (.obj [("lessons", .arr [])])) "A"
      ⟨"B", "d", []⟩).llmCalls ≠ 0 := by
  decide

/-- C9 (amended): a cached entry that parses to a truthy value is used
directly with zero LLM calls and no cache write; a corrupt (unparseable)
entry is treated exactly like a miss: one LLM call and a fresh generation.
-/
theorem cache_short_circuit (cache : CacheMap)
    (llm : String → Except ErrInfo Json) (subTitle : String)
    (ch : ChapterT) :
    (∀ j, cacheLookup cache (subTitle ++ "-" ++ ch.title) =
        some (.jsonOf j) → j.isTruthy = true →
      processChapter cache llm subTitle ch = ⟨j, 0, cache⟩) ∧
    (cacheLookup cache (subTitle ++ "-" ++ ch.title) = some .garbage →
      processChapter cache llm subTitle ch =
        ⟨genChapter ch (llm (subTitle ++ "-" ++ ch.title)), 1,
         cachePut cache (subTitle ++ "-" ++ ch.title)
           (.jsonOf (genChapter ch (llm (subTitle ++ "-" ++ ch.title))))⟩) := by
  constructor
  · intro j hj hT
    simp [processChapter, chapterFromCache, hj, hT]
  · intro hg
    simp [processChapter, chapterFromCache, hg]

/-- C9 (witness): a truthy cached object short-circuits with zero LLM
calls. -/
theorem cache_short_circuit_witness :
    processChapter [("A-B", .jsonOf (.obj []))]
        (fun _ => .error ⟨"never called", none⟩) "A" ⟨"B", "d", []⟩ =
      ⟨.obj [], 0, [("A-B", .jsonOf (.obj []))]⟩ :=
  (cache_short_circuit [("A-B", .jsonOf (.obj []))]
    (fun _ => .error ⟨"never called", none⟩) "A" ⟨"B", "d", []⟩).1
    (.obj []) rfl rfl

/-- C10: on a cache miss whose generation fails, the synthetic error
chapter is still written to the cache under the chapter key, and a second
processing of the same key (any oracle) returns the cached error chapter
with zero LLM calls. -/
theorem error_chapter_write_through (cache : CacheMap)
    (llm llm2 : String → Except ErrInfo Json) (subTitle : String)
    (ch : ChapterT) (e : ErrInfo)
    (hmiss : chapterFromCache
      (cacheLookup cache (subTitle ++ "-" ++ ch.title)) = none)
    (herr : llm (subTitle ++ "-" ++ ch.title) = .error e) :
    processChapter cache llm subTitle ch =
      ⟨errorChapterChain ch e, 1,
       cachePut cache (subTitle ++ "-" ++ ch.title)
         (.jsonOf (errorChapterChain ch e))⟩ ∧
    processChapter (cachePut cache (subTitle ++ "-" ++ ch.title)
        (.jsonOf (errorChapterChain ch e))) llm2 subTitle ch =
      ⟨errorChapterChain ch e, 0,
       cachePut cache (subTitle ++ "-" ++ ch.title)
         (.jsonOf (errorChapterChain ch e))⟩ := by
  constructor
  · simp [processChapter, hmiss, genChapter, herr]
  · have hl : cacheLookup (cachePut cache (subTitle ++ "-" ++ ch.title)
        (.jsonOf (errorChapterChain ch e))) (subTitle ++ "-" ++ ch.title) =
        some (.jsonOf (errorChapterChain ch e)) := by
      simp [cacheLookup, cachePut, List.lookup]
    have ht : (errorChapterChain ch e).isTruthy = true := rfl
    simp only [processChapter, hl, chapterFromCache, ht, if_true]

/-- C10 (witness): with an empty cache and a throwing oracle, the error
chapter is cached and the second run reads it back without an LLM call. -/
theorem error_chapter_write_through_witness :
    processChapter [] (fun _ => .error ⟨"boom", none⟩) "A" ⟨"B", "d", []⟩ =
      ⟨errorChapterChain ⟨"B", "d", []⟩ ⟨"boom", none⟩, 1,
       cachePut [] "A-B" (.jsonOf (errorChapterChain ⟨"B", "d", []⟩
         ⟨"boom", none⟩))⟩ ∧
    processChapter (cachePut [] "A-B" (.jsonOf (errorChapterChain
        ⟨"B", "d", []⟩ ⟨"boom", none⟩)))
        (fun _ => .ok .null) "A" ⟨"B", "d", []⟩ =
      ⟨errorChapterChain ⟨"B", "d", []⟩ ⟨"boom", none⟩, 0,
       cachePut [] "A-B" (.jsonOf (errorChapterChain ⟨"B", "d", []⟩
         ⟨"boom", none⟩))⟩ :=
  error_chapter_write_through [] _ _ "A" ⟨"B", "d", []⟩ ⟨"boom", none⟩
    rfl rfl

/-! ## Claim C2: chapter-level failure is isolated -/

/-- C2: with an empty cache and pairwise-distinct chapter keys, the
processed subtopic equals the pure per-chapter map (no exception escapes a
chapter); the chapter whose LLM invocation throws carries exactly the one
synthetic error lesson, and every chapter whose invocation returns
strictly valid content produces its normal chapter. -/
theorem chapter_failure_isolated (llm : String → Except ErrInfo Json)
    (sub : SubTopicT) (i : Nat) (chFail : ChapterT) (e : ErrInfo)
    (hch : sub.chapters[i]? = some chFail)
    (hnodup :
      (sub.chapters.map (fun ch => sub.title ++ "-" ++ ch.title)).Nodup)
    (herr : llm (sub.title ++ "-" ++ chFail.title) = .error e) :
    (processSubtopicResult [] llm sub).chapters =
      sub.chapters.map
        (fun ch => genChapter ch (llm (sub.title ++ "-" ++ ch.title))) ∧
    (processSubtopicResult [] llm sub).chapters[i]? =
      some (errorChapterChain chFail e) ∧
    jsGet (errorChapterChain chFail e) "lessons" =
      .ok (.arr [errorLessonChain e]) ∧
    (∀ j ch payload parsed, j ≠ i → sub.chapters[j]? = some ch →
      llm (sub.title ++ "-" ++ ch.title) = .ok payload →
      parseLessonContent payload = some parsed →
      (processSubtopicResult [] llm sub).chapters[j]? =
        some (normalChapter ch parsed)) := by
  have hmap : (processSubtopicResult [] llm sub).chapters =
      sub.chapters.map
        (fun ch => genChapter ch (llm (sub.title ++ "-" ++ ch.title))) :=
    processChapters_all_miss llm sub.title sub.chapters []
      (fun _ _ => rfl) hnodup
  refine ⟨hmap, ?_, rfl, ?_⟩
  · rw [hmap, List.getElem?_map, hch]
    simp [genChapter, herr]
  · intro j ch payload parsed _ hj hok hparse
    rw [hmap, List.getElem?_map, hj]
    simp [genChapter, hok, hparse]

/-- C2 (witness): three chapters, the middle one's LLM call throws; its
slot in the assembled subtopic is exactly the synthetic error chapter. -/
theorem chapter_failure_isolated_witness :
    (processSubtopicResult []
        (fun k => if k = "S-C2" then .error ⟨"boom", none⟩
          else .ok (.obj [("lessons", .arr [.obj
            [("lessonInfo", .obj [("title", .str "L"),
              ("description", .str "d")]),
             ("videoScript", .obj [("title", .str "V"),
              ("description", .str "w")])]])]))
        ⟨"S", "sd", [⟨"C1", "d1", []⟩, ⟨"C2", "d2", []⟩,
          ⟨"C3", "d3", []⟩]⟩).chapters[1]? =
      some (errorChapterChain ⟨"C2", "d2", []⟩ ⟨"boom", none⟩) :=
  (chapter_failure_isolated _ ⟨"S", "sd", [⟨"C1", "d1", []⟩,
    ⟨"C2", "d2", []⟩, ⟨"C3", "d3", []⟩]⟩ 1 ⟨"C2", "d2", []⟩
    ⟨"boom", none⟩ rfl (by decide) (by rfl)).2.1

/-! ## Claim C3: a TOC-stage LLM throw is caught and fatal, not thrown -/

/-- C3: when the TOC completion call throws, the TOC stage catches it and
returns the state with `error` set (and no `toc`); the sequential pipeline
run then short-circuits and returns an object with `error` populated and
`generatedContent` undefined — nothing escapes as an exception (all
modelled functions are total). The orchestrator overwrites the stage's
message with its own missing-TOC message. -/
theorem toc_failure_fatal (search : List Chunk) (cache : CacheMap)
    (chapLlm : String → Except ErrInfo Json) (e : ErrInfo)
    (state : EducationState)
    (h1 : state.toc = none) (h2 : state.generatedContent = none) :
    (generateTOC cache (.error e) (retrieveContext search state)).1.error =
      some ("Failed to generate TOC: " ++ e.message) ∧
    (generateTOC cache (.error e) (retrieveContext search state)).1.toc =
      none ∧
    (runPipeline search (.error e) cache chapLlm state).error =
      some "TOC data was not generated properly" ∧
    (runPipeline search (.error e) cache chapLlm state).generatedContent =
      none := by
  have ht1 : (retrieveContext search state).toc = none := by
    unfold retrieveContext
    split <;> exact h1
  have hg1 : (retrieveContext search state).generatedContent = none := by
    unfold retrieveContext
    split <;> exact h2
  have hscut : (generateTOC cache (Except.error e)
      (retrieveContext search state)).1.toc = none := ht1
  refine ⟨rfl, hscut, ?_, ?_⟩
  · simp only [runPipeline, hscut]
  · simp only [runPipeline, hscut]
    exact hg1

/-- C3 (witness): a blank run whose TOC call throws. -/
theorem toc_failure_fatal_witness :
    (generateTOC [] (.error ⟨"boom", none⟩)
      (retrieveContext [] ⟨"T", [], none, none, none, none, [], none⟩)).1.error
      = some ("Failed to generate TOC: " ++ "boom") ∧
    (generateTOC [] (.error ⟨"boom", none⟩)
      (retrieveContext [] ⟨"T", [], none, none, none, none, [], none⟩)).1.toc
      = none ∧
    (runPipeline [] (.error ⟨"boom", none⟩) [] (fun _ => .ok .null)
      ⟨"T", [], none, none, none, none, [], none⟩).error =
      some "TOC data was not generated properly" ∧
    (runPipeline [] (.error ⟨"boom", none⟩) [] (fun _ => .ok .null)
      ⟨"T", [], none, none, none, none, [], none⟩).generatedContent = none :=
  toc_failure_fatal [] [] (fun _ => .ok .null) ⟨"boom", none⟩
    ⟨"T", [], none, none, none, none, [], none⟩ rfl rfl

/-! ## Claim C4: subtopic order is preserved across completion orders -/

/-- C4: for every completion schedule that is a permutation of the task
indices, the `Promise.all` gather of the slot array equals the subtopics
mapped in original TOC order — independent of the completion order — and
the assembled `generatedContent.subTopics` of the content stage is exactly
that index-ordered map, with titles in the original order. -/
theorem subtopic_order_preserved (cache : CacheMap)
    (llm : String → Except ErrInfo Json) (toc : Toc) (sched : List Nat)
    (hperm : sched.Perm (List.range toc.subTopics.length)) :
    promiseAll (runSched (processSubtopicResult cache llm) toc.subTopics
        sched (List.replicate toc.subTopics.length none)) =
      some (toc.subTopics.map (processSubtopicResult cache llm)) ∧
    (toc.subTopics.map (processSubtopicResult cache llm)).map
        (fun st => st.title) = toc.subTopics.map (fun st => st.title) ∧
    ∀ state : EducationState, state.toc = some toc →
      ∃ gc, (generateChapterContent cache llm state).generatedContent =
          some gc ∧
        gc.subTopics = toc.subTopics.map (processSubtopicResult cache llm)
    := by
  refine ⟨?_, by simp [List.map_map, Function.comp, processSubtopicResult], ?_⟩
  · have hfin : runSched (processSubtopicResult cache llm) toc.subTopics
        sched (List.replicate toc.subTopics.length none) =
        (toc.subTopics.map (processSubtopicResult cache llm)).map some := by
      apply List.ext_getElem?
      intro k
      by_cases hk : k < toc.subTopics.length
      · have hmem : k ∈ sched := by
          rw [hperm.mem_iff]
          exact List.mem_range.mpr hk
        rw [runSched_get_mem _ _ sched _ k hmem hk (by simp)]
        rw [List.getElem?_map, List.getElem?_map,
          List.getElem?_eq_getElem hk]
        rfl
      · push_neg at hk
        have hlen1 : (runSched (processSubtopicResult cache llm)
            toc.subTopics sched
            (List.replicate toc.subTopics.length none)).length ≤ k := by
          rw [runSched_length]
          simpa using hk
        have hlen2 : (((toc.subTopics.map
            (processSubtopicResult cache llm)).map some).length) ≤ k := by
          simpa using hk
        rw [List.getElem?_eq_none hlen1, List.getElem?_eq_none hlen2]
    rw [hfin, promiseAll_map_some]
  · intro state htoc
    simp only [generateChapterContent, recoverToc, htoc]
    exact ⟨_, rfl, rfl⟩

/-- C4 (witness): subtopics `[A, B, C]` with schedule `[1, 0, 2]` (B
completes first) still assemble as `[A, B, C]`. -/
theorem subtopic_order_preserved_witness :
    promiseAll (runSched
        (processSubtopicResult [] (fun _ => .ok .null))
        (Toc.mk "M" "D" [⟨"A", "", []⟩, ⟨"B", "", []⟩,
          ⟨"C", "", []⟩]).subTopics [1, 0, 2]
        (List.replicate (Toc.mk "M" "D" [⟨"A", "", []⟩, ⟨"B", "", []⟩,
          ⟨"C", "", []⟩]).subTopics.length none)) =
      some ((Toc.mk "M" "D" [⟨"A", "", []⟩, ⟨"B", "", []⟩,
        ⟨"C", "", []⟩]).subTopics.map
        (processSubtopicResult [] (fun _ => .ok .null))) :=
  (subtopic_order_preserved [] (fun _ => .ok .null)
    ⟨"M", "D", [⟨"A", "", []⟩, ⟨"B", "", []⟩, ⟨"C", "", []⟩]⟩ [1, 0, 2]
    (by decide)).1
